import Mathlib

/-!
Shallow embedding of the ledger / transfer core of the At-console-Server
repository (Express + Mongoose + iShare SOAP provider adapter).

Embedded source locations:
* `src/Connection/connection.js` — the `IShareService` class (the enhanced
  "Complete Updated Version"): `formatMsisdn`, `sendTransfer`,
  `parseTransferResponse`, `getErrorMessage`, `generateTransactionId`.
* `src/Routes/ApiLogic/api.js` — `POST /transfer/send` (API router) and
  `POST /use-data`.
* `src/unnamed/part_002` — the web router: `POST /transfer/send` (with the
  provider call) and `POST /use-data`.
* `src/Routes/AdminRoutes/Admin.js` — `POST /credit-ishare`, `POST /debit-ishare`.
* `src/unnamed/part_001` — the Mongoose schemas (record shapes, status enum,
  transaction type enum).

Conventions: JavaScript numbers that hold MB amounts and balances are modelled
as `Int` (amounts in all guarded paths are integral); thrown JS errors are
`Except.error` carrying the message; Mongo documents are records in lists; a
single account is modelled (all the cited operations touch one user's balance).
-/

/-- JS whitespace test used by `String.prototype.trim` (restricted to the
whitespace characters that can actually occur in the modelled inputs). -/
def jsWhitespace (c : Char) : Bool :=
  c == ' ' || c == '\t' || c == '\n' || c == '\r'

/-- `String.prototype.trim`: strip leading and trailing whitespace. -/
def jsTrim (s : String) : String :=
  String.mk (((s.data.dropWhile jsWhitespace).reverse.dropWhile jsWhitespace).reverse)

/-- The character list of a string literal (helper for pattern matching). -/
def strLit (s : String) : List Char := s.data

/-- `String.prototype.includes`: substring containment test. -/
def containsSub (needle : List Char) : List Char → Bool
  | [] => needle.isEmpty
  | c :: rest => needle.isPrefixOf (c :: rest) || containsSub needle rest

/-- JS `a || b` for strings (empty string is falsy). -/
def jsOrStr (a b : String) : String :=
  if a = "" then b else a

/-- JS `a || b` where `a` may be `null` (`none`) or a string. -/
def jsOrOpt (a : Option String) (b : String) : String :=
  match a with
  | none => b
  | some s => if s = "" then b else s

/-- `IShareService.formatMsisdn` (`src/Connection/connection.js`, both copies
are identical): canonicalize a phone number into 12-digit international
format, throwing (here: `Except.error`) on any input it cannot handle.

Faithful to the source: the 9-digit branch prepends `'233' + '2'` and the
10-digit-without-leading-0 branch prepends `'233'`, both yielding 13 digits,
which the final `length !== 12` check then rejects.  The advisory
known-carrier-prefix check at the end only issues a `console.warn` and never
changes the result, so it has no observable effect here. -/
def formatMsisdn (phoneNumber : String) : Except String String :=
  if phoneNumber = "" then
    .error "Phone number is required"
  else
    let cleaned := (jsTrim phoneNumber).data.filter Char.isDigit
    let branch : Except String (List Char) :=
      if cleaned.length = 10 ∧ cleaned.take 1 = ['0'] then
        -- Ghana local format with leading 0: drop the 0, prepend 233
        .ok (strLit "233" ++ cleaned.drop 1)
      else if cleaned.length = 10 then
        -- 10 digits without leading 0: prepend 233 (gives 13 digits)
        .ok (strLit "233" ++ cleaned)
      else if cleaned.length = 9 then
        -- 9 digits: prepend 233 and an assumed missing 2 (gives 13 digits)
        .ok (strLit "233" ++ ['2'] ++ cleaned)
      else if cleaned.length = 12 then
        if cleaned.take 3 = strLit "233" then
          .ok cleaned
        else
          .error "International format must start with Ghana country code 233"
      else if cleaned.length = 13 ∧ cleaned.take 4 = strLit "0233" then
        .ok (cleaned.drop 1)
      else
        .error ("Invalid phone number format. Received " ++
          toString cleaned.length ++ " digits")
    match branch with
    | .error e => .error e
    | .ok c =>
      if c.length ≠ 12 then
        .error ("Final formatted number must be 12 digits. Got " ++
          toString c.length ++ " digits")
      else
        .ok (String.mk c)

/-- `IShareService.generateTransactionId`: prefix, timestamp and random
suffix joined by underscores (the timestamp and suffix are inputs here, the
source reads `Date.now()` and `Math.random()`). -/
def generateTransactionId (pre : String) (timestamp : Nat) (random : String) : String :=
  pre ++ "_" ++ toString timestamp ++ "_" ++ random

/-- `IShareService.getErrorMessage`: fixed table from provider response code
to human-readable message. -/
def getErrorMessage (errorCode : String) : String :=
  if errorCode = "200" then "Successfully queried; good feedback"
  else if errorCode = "319" then "No balance"
  else if errorCode = "306" then "Subscriber does not exist"
  else if errorCode = "161" then
    "Incorrect RecipientMsisdn. Must be in numbers (12 digit international format MSISDN)"
  else if errorCode = "165" then "Incorrect Recipient MSISDN Length"
  else if errorCode = "305" then "Invalid Username/Password"
  else if errorCode = "312" then
    "Sorry, you are not eligible to buy this product. Kindly call 0577555000 or email business@airteltigo.com.gh to subscribe!!"
  else if errorCode = "61319" then "Sorry the process failed. Please try again"
  else if errorCode = "64528" then "Recharge will increase balance beyond max threshold"
  else "Unknown error code: " ++ errorCode

/-!  Provider response parsing (`parseTransferResponse`, enhanced version).
The source extracts fields with JS regexes over the raw XML body:
`/<ResponseCode>(\d+)<\/ResponseCode>/` (greedy digit run) and lazy
`/<Tag>(.*?)<\/Tag>/` captures.  The helpers below implement leftmost-match
regex scanning: at each start position try the literal open tag, then the
capture, then the literal close tag; `.` does not match a newline, so a lazy
capture fails at a start position when a newline appears before the close
tag, and scanning resumes one character further. -/

/-- Match `openT ++ (\d+) ++ closeT` at the head of `l`, returning the digit
run.  Greedy digits followed by a mandatory `<` cannot backtrack into the
close tag, so taking the maximal digit run is exact. -/
def matchDigitTagAt (openT closeT l : List Char) : Option (List Char) :=
  if openT.isPrefixOf l then
    let rest := l.drop openT.length
    let ds := rest.takeWhile Char.isDigit
    if ds ≠ [] ∧ closeT.isPrefixOf (rest.drop ds.length) then some ds else none
  else none

/-- Lazy capture after an already-matched open tag: grow the capture one
non-newline character at a time until the close tag matches. -/
def lazyCapture (closeT : List Char) : List Char → List Char → Option (List Char)
  | [], _ => none
  | c :: rest, acc =>
    if closeT.isPrefixOf (c :: rest) then some acc.reverse
    else if c == '\n' || c == '\r' then none
    else lazyCapture closeT rest (c :: acc)

/-- Match `openT ++ (.*?) ++ closeT` at the head of `l`. -/
def matchLazyTagAt (openT closeT l : List Char) : Option (List Char) :=
  if openT.isPrefixOf l then
    if closeT.isPrefixOf (l.drop openT.length) then some []
    else lazyCapture closeT (l.drop openT.length) []
  else none

/-- Leftmost match: try `f` at every start position, left to right. -/
def scanFirst (f : List Char → Option (List Char)) : List Char → Option (List Char)
  | [] => none
  | c :: rest =>
    match f (c :: rest) with
    | some r => some r
    | none => scanFirst f rest

/-- `xml.match(/<Tag>(\d+)<\/Tag>/)` — first digit capture, if any. -/
def regexDigitTag (tag : String) (xml : String) : Option String :=
  (scanFirst (matchDigitTagAt (strLit ("<" ++ tag ++ ">")) (strLit ("</" ++ tag ++ ">")))
      xml.data).map String.mk

/-- `xml.match(/<Tag>(.*?)<\/Tag>/)` — first lazy capture, if any. -/
def regexLazyTag (tag : String) (xml : String) : Option String :=
  (scanFirst (matchLazyTagAt (strLit ("<" ++ tag ++ ">")) (strLit ("</" ++ tag ++ ">")))
      xml.data).map String.mk

/-- Result shape built by `IShareService.parseTransferResponse` (enhanced
version, `src/Connection/connection.js`): an ordinary `{success: ...}` record;
`parseError` is only populated by the HTML early-return (the pure regex code
below cannot raise, so the catch-all branch of the source is unreachable). -/
structure TransferResult where
  success : Bool
  responseCode : Option String
  message : String
  systemTransactionId : Option String
  vendorTransactionId : Option String
  parseError : Option String
deriving DecidableEq, Repr

/-- `IShareService.parseTransferResponse` (enhanced version): early-return an
ordinary failure record when the trimmed body starts with `<html`; otherwise
extract `ResponseCode`, `ResponseMsg`, `systemTranx_id`, `vendorTranx_id` by
regex, with `success: responseCode === '200'` and
`message: responseMsg || humanReadableMessage || 'No message from provider'`. -/
def parseTransferResponse (xmlResponse : String) : TransferResult :=
  if (strLit "<html").isPrefixOf (jsTrim xmlResponse).data then
    { success := false
      responseCode := none
      message := "Provider returned HTML error page instead of XML response"
      systemTransactionId := none
      vendorTransactionId := none
      parseError := some "HTML response received" }
  else
    let responseCode := regexDigitTag "ResponseCode" xmlResponse
    let responseMsg := regexLazyTag "ResponseMsg" xmlResponse
    let systemTranxId := regexLazyTag "systemTranx_id" xmlResponse
    let vendorTranxId := regexLazyTag "vendorTranx_id" xmlResponse
    let humanReadableMessage : Option String :=
      match responseCode with
      | some rc => some (getErrorMessage rc)
      | none => responseMsg
    { success := responseCode = some "200"
      responseCode := responseCode
      message := jsOrOpt responseMsg (jsOrOpt humanReadableMessage "No message from provider")
      systemTransactionId := systemTranxId
      vendorTransactionId := vendorTranxId
      parseError := none }

/-- Transport-level faults of the provider call: the enhanced `sendTransfer`
accepts every HTTP status 200–599 (`validateStatus`), so axios only rejects
when no response arrives at all (`error.request` branch of the catch). -/
inductive NetFault
  | connRefused
  | timedOut
  | dnsFailed
  | otherNet (msg code : String)
deriving DecidableEq, Repr

/-- The messages the enhanced `sendTransfer` catch block throws for the
`error.request` (no response received) branch. -/
def netFaultMessage : NetFault → String
  | .connRefused => "Connection refused - Provider service may be down or unreachable"
  | .timedOut => "Connection timeout - Provider service is not responding"
  | .dnsFailed => "DNS resolution failed - Cannot find provider server"
  | .otherNet m c => "Network error: " ++ m ++ " (" ++ c ++ ")"

/-- Behaviour of the external gateway for one `axios.post`: either a response
body (any HTTP status — see `validateStatus`) or a transport fault. -/
inductive ProviderBehavior
  | respond (xml : String)
  | networkFault (f : NetFault)
deriving DecidableEq, Repr

/-- `IShareService.sendTransfer` (enhanced version): minimum-amount check and
`formatMsisdn` run before the `try` block (their throws propagate to the
caller and no HTTP request is issued); then the SOAP POST, whose parsed
response is returned on any HTTP status, and whose transport faults are
rethrown as plain `Error`s.  The `Bool` records whether the HTTP request was
actually issued. -/
def sendTransfer (pb : ProviderBehavior) (recipientMsisdn : String) (amountMB : Int)
    (_transactionId : String) : Except String TransferResult × Bool :=
  if amountMB < 50 then
    (.error "Minimum transfer amount is 50MB", false)
  else
    match formatMsisdn recipientMsisdn with
    | .error e => (.error e, false)
    | .ok _formattedRecipient =>
      match pb with
      | .respond xml => (.ok (parseTransferResponse xml), true)
      | .networkFault f => (.error (netFaultMessage f), true)

/-!  Data model (`src/unnamed/part_001`, the Mongoose schemas) and the route
handlers.  One account is modelled: `St.ishareBalance` is the user's
`ishareBalance` column, `St.transfers` the `IshareTransfer` collection,
`St.transactions` the `Transaction` collection (the audit ledger), and
`St.providerCalls` counts the SOAP POSTs actually issued to the gateway.
`IshareLoad` rows carry no amount information beyond their `Transaction`
twin and are not modelled. -/

/-- `status` enum of the `IshareTransfer` schema. -/
inductive TStatus
  | pending
  | completed
  | failed
deriving DecidableEq, Repr

/-- One `IshareTransfer` document (fields relevant to the claims). -/
structure TransferRec where
  recipientPhoneNumber : String
  amountMB : Int
  note : String
  status : TStatus
  externalTransactionId : Option String
  systemTransactionId : Option String
  vendorTransactionId : Option String
  failureReason : Option String
deriving DecidableEq, Repr

/-- `type` enum of the `Transaction` schema. -/
inductive TxType
  | admin_load
  | admin_debit
  | data_usage
  | transfer_sent
  | transfer_received
  | transfer_failed
  | transfer_error
deriving DecidableEq, Repr

/-- `method` enum of the `Transaction` schema. -/
inductive TxMethod
  | web
  | api
deriving DecidableEq, Repr

/-- One `Transaction` document (the append-only ledger entry). -/
structure TransactionRec where
  type : TxType
  amount : Int
  method : TxMethod
deriving DecidableEq, Repr

/-- The mutable store visible to the handlers. -/
structure St where
  ishareBalance : Int
  transfers : List TransferRec
  transactions : List TransactionRec
  providerCalls : Nat
deriving DecidableEq, Repr

/-- Fresh store with a given starting balance. -/
def initSt (b0 : Int) : St :=
  { ishareBalance := b0, transfers := [], transactions := [], providerCalls := 0 }

/-- The save-time validator of the `IshareTransfer` schema's
`recipientPhoneNumber` field (`src/unnamed/part_001` lines 97–108): the
stored string must reduce to 9–10 digits after stripping non-digit
characters (`/^\d{9,10}$/` over `String(v).replace(/\D/g, '')`).  Mongoose
runs this on every `transfer.save()`, including the pending insert. -/
def recipientPhoneValid (v : String) : Bool :=
  (v.data.filter Char.isDigit).length == 9 ||
  (v.data.filter Char.isDigit).length == 10

/-- Observable outcome of the web `POST /transfer/send` handler. -/
inductive WebOutcome
  | badRequest (msg : String)
  | completedOk (newBalance : Int)
  | transferFailed (msg : String)
  | invalidPhoneFormat (msg : String)
  | providerServiceError (msg : String)
  | serverError (msg : String)
deriving DecidableEq, Repr

/-- Web `POST /transfer/send` (`src/unnamed/part_002` lines 750–994).
Validation order as in the source: phone digit-count (9, 10, or 12 starting
`233`), then `amountMB < 50`, then the advisory read
`req.user.ishareBalance < amountMB`; any failure is a 400 with nothing
persisted.  Then a *pending* `IshareTransfer` is saved carrying a freshly
generated `externalTransactionId` (here the parameter `txid`).  That save
runs the schema validators: `recipientPhoneValid` restricts the stored
destination to 9–10 digits, so a 12-digit destination — although accepted by
the route's own check — throws a ValidationError into the route's outer
catch (500, nothing persisted, provider never called); likewise the unique
sparse index on `externalTransactionId` makes a duplicate id throw with
nothing persisted.  Then
`iShareService.sendTransfer` runs: on `success` the transfer is completed,
the balance decremented with an unconditional `$inc`, and a `transfer_sent`
entry of `-amountMB` appended; on an unsuccessful parse result the transfer
is failed and a `transfer_failed` entry of `0` appended; on a thrown error
(`formatMsisdn` rejection or transport fault) the transfer is failed and a
`transfer_error` entry of `0` appended, with the HTTP status chosen by an
`includes('Invalid phone number format')` test on the message. -/
def webTransferSend (phoneNumber : String) (amountMB : Int) (note : String)
    (pb : ProviderBehavior) (txid : String) (s : St) : WebOutcome × St :=
  let phoneStr := jsTrim phoneNumber
  let digitsOnly := phoneStr.data.filter Char.isDigit
  if ¬ (digitsOnly.length = 9 ∨ digitsOnly.length = 10 ∨
        (digitsOnly.length = 12 ∧ (strLit "233").isPrefixOf digitsOnly)) then
    (.badRequest "Phone number must be 9-10 digits (Ghana local) or 12 digits (international format)", s)
  else if amountMB < 50 then
    (.badRequest "Amount must be at least 50MB (provider requirement)", s)
  else if s.ishareBalance < amountMB then
    (.badRequest "Insufficient balance", s)
  else if ¬ recipientPhoneValid phoneStr then
    (.serverError "IshareTransfer validation failed", s)
  else if s.transfers.any (fun t => t.externalTransactionId = some txid) then
    (.serverError "E11000 duplicate key error", s)
  else
    let pending : TransferRec :=
      { recipientPhoneNumber := phoneStr
        amountMB := amountMB
        note := note
        status := .pending
        externalTransactionId := some txid
        systemTransactionId := none
        vendorTransactionId := none
        failureReason := none }
    match sendTransfer pb phoneStr amountMB txid with
    | (.ok apiResult, called) =>
      let s1 := { s with providerCalls := s.providerCalls + (if called then 1 else 0) }
      if apiResult.success then
        let tr := { pending with
          status := .completed
          systemTransactionId := apiResult.systemTransactionId
          vendorTransactionId := apiResult.vendorTransactionId }
        let newBal := s.ishareBalance - amountMB
        (.completedOk newBal,
         { s1 with
            ishareBalance := newBal
            transfers := s.transfers ++ [tr]
            transactions := s.transactions ++
              [{ type := .transfer_sent, amount := -amountMB, method := .web }] })
      else
        let reason := jsOrStr apiResult.message "Provider API call failed"
        let tr := { pending with status := .failed, failureReason := some reason }
        (.transferFailed reason,
         { s1 with
            transfers := s.transfers ++ [tr]
            transactions := s.transactions ++
              [{ type := .transfer_failed, amount := 0, method := .web }] })
    | (.error e, called) =>
      let s1 := { s with providerCalls := s.providerCalls + (if called then 1 else 0) }
      let reason := jsOrStr e "Provider service unavailable"
      let tr := { pending with status := .failed, failureReason := some reason }
      let s2 :=
        { s1 with
           transfers := s.transfers ++ [tr]
           transactions := s.transactions ++
             [{ type := .transfer_error, amount := 0, method := .web }] }
      if containsSub (strLit "Invalid phone number format") e.data then
        (.invalidPhoneFormat e, s2)
      else
        (.providerServiceError reason, s2)

/-- Observable outcome of the API-side money handlers. -/
inductive ApiOutcome
  | badRequest (msg : String)
  | okDone (newBalance : Int)
deriving DecidableEq, Repr

/-- API `POST /transfer/send` (`src/Routes/ApiLogic/api.js` lines 153–235).
Validation: `/^\d{10}$/` on the raw phone string, `amountMB < 1` rejection,
advisory balance read.  On success an `IshareTransfer` is created directly in
status `'completed'` (no `externalTransactionId`, no provider identifiers),
the balance is decremented with an unconditional `$inc`, and a
`transfer_sent` entry of `-amountMB` (method `'api'`) is appended.  The
handler never touches `iShareService`, so no provider call occurs.  (The
schema's 9–10-digit `recipientPhoneValid` save validator is subsumed here by
the route's own `/^\d{10}$/` check, so it can never fire on this path.) -/
def apiTransferSend (phoneNumber : String) (amountMB : Int) (note : String)
    (s : St) : ApiOutcome × St :=
  if ¬ (phoneNumber.data.length = 10 ∧ phoneNumber.data.all Char.isDigit) then
    (.badRequest "Phone number must be exactly 10 digits", s)
  else if amountMB < 1 then
    (.badRequest "Amount must be at least 1MB", s)
  else if s.ishareBalance < amountMB then
    (.badRequest "Insufficient balance", s)
  else
    let tr : TransferRec :=
      { recipientPhoneNumber := phoneNumber
        amountMB := amountMB
        note := note
        status := .completed
        externalTransactionId := none
        systemTransactionId := none
        vendorTransactionId := none
        failureReason := none }
    (.okDone (s.ishareBalance - amountMB),
     { s with
        ishareBalance := s.ishareBalance - amountMB
        transfers := s.transfers ++ [tr]
        transactions := s.transactions ++
          [{ type := .transfer_sent, amount := -amountMB, method := .api }] })

/-- Web `POST /use-data` (`src/unnamed/part_002` lines 1134–1177): reject
`amount <= 0`, advisory balance read, then an unconditional `$inc` of
`-amount` and a `data_usage` entry recorded with *positive* `amount`. -/
def useData (amount : Int) (s : St) : ApiOutcome × St :=
  if amount ≤ 0 then
    (.badRequest "Invalid amount", s)
  else if s.ishareBalance < amount then
    (.badRequest "Insufficient balance", s)
  else
    (.okDone (s.ishareBalance - amount),
     { s with
        ishareBalance := s.ishareBalance - amount
        transactions := s.transactions ++
          [{ type := .data_usage, amount := amount, method := .web }] })

/-- Admin `POST /credit-ishare` (`src/Routes/AdminRoutes/Admin.js` lines
149–231): reject `amountMB <= 0`, append an `admin_load` entry with positive
amount, `$inc` the balance by `amountMB`.  (The `IshareLoad` row it also
creates carries no extra ledger information and is not modelled.) -/
def adminCreditIshare (amountMB : Int) (s : St) : ApiOutcome × St :=
  if amountMB ≤ 0 then
    (.badRequest "Amount must be greater than 0", s)
  else
    (.okDone (s.ishareBalance + amountMB),
     { s with
        ishareBalance := s.ishareBalance + amountMB
        transactions := s.transactions ++
          [{ type := .admin_load, amount := amountMB, method := .web }] })

/-- Admin `POST /debit-ishare` (`src/Routes/AdminRoutes/Admin.js` lines
335–414): reject `amountMB <= 0`, advisory balance read, then a `Transaction`
of type `'data_usage'` with *positive* `amountMB` and an unconditional `$inc`
of `-amountMB`. -/
def adminDebitIshare (amountMB : Int) (s : St) : ApiOutcome × St :=
  if amountMB ≤ 0 then
    (.badRequest "Amount must be greater than 0", s)
  else if s.ishareBalance < amountMB then
    (.badRequest "Insufficient balance", s)
  else
    (.okDone (s.ishareBalance - amountMB),
     { s with
        ishareBalance := s.ishareBalance - amountMB
        transactions := s.transactions ++
          [{ type := .data_usage, amount := amountMB, method := .web }] })

/-- One sequential (request-at-a-time) operation against the store. -/
inductive Op
  | adminCredit (amountMB : Int)
  | adminDebit (amountMB : Int)
  | useData (amount : Int)
  | apiTransfer (phoneNumber : String) (amountMB : Int) (note : String)
  | webTransfer (phoneNumber : String) (amountMB : Int) (note : String)
      (pb : ProviderBehavior) (txid : String)

/-- Sequential semantics: run one handler to completion. -/
def step (s : St) : Op → St
  | .adminCredit a => (adminCreditIshare a s).2
  | .adminDebit a => (adminDebitIshare a s).2
  | .useData a => (useData a s).2
  | .apiTransfer p a n => (apiTransferSend p a n s).2
  | .webTransfer p a n pb t => (webTransferSend p a n pb t s).2

/-- Run a whole sequence of operations. -/
def runOps (s : St) (ops : List Op) : St :=
  ops.foldl step s

/-- Sum of the ledger amounts exactly as recorded. -/
def ledgerSum (l : List TransactionRec) : Int :=
  (l.map (fun t => t.amount)).sum

/-- Effective balance contribution of one ledger entry: `data_usage` rows are
recorded with positive `amount` although they debit the balance, so they
count negatively; every other type is recorded already signed. -/
def txEffective (t : TransactionRec) : Int :=
  match t.type with
  | .data_usage => -t.amount
  | _ => t.amount

/-- Sum of the effective contributions of the ledger. -/
def effectiveSum (l : List TransactionRec) : Int :=
  (l.map txEffective).sum

/-!  Interleaved debit model.  Every debit path in the repository has the
same two-step shape: the handler first *reads* the balance during validation
(`req.user.ishareBalance < amountMB`, on a user document loaded earlier by
the auth middleware) and later *decrements* it with an unconditional
`findByIdAndUpdate(..., { $inc: { ishareBalance: -amountMB } })` — there is
no conditional update tying the decrement to the check.  Concurrent requests
therefore interleave as: each request contributes one `check` event (the
validation read) and, if that passed, one `applyInc` event (the `$inc`). -/

/-- Phase of one in-flight debit request. -/
inductive ReqPhase
  | started
  | passed
  | rejected
  | applied
deriving DecidableEq, Repr

/-- One interleaving event: request `i` runs its validation read, or request
`i` runs its unconditional `$inc`. -/
inductive DebitEv
  | check (i : Nat)
  | applyInc (i : Nat)
deriving DecidableEq, Repr

/-- Balance plus the phase of each in-flight request. -/
structure CState where
  balance : Int
  phases : List ReqPhase
deriving DecidableEq, Repr

/-- Small-step semantics of the code's check-then-`$inc` debits:
`check i` compares the balance against request `i`'s amount (rejecting with
"Insufficient balance" exactly when `balance < amount`), and `applyInc i`
subtracts unconditionally — precisely what `$inc` does. -/
def cstep (amounts : List Int) (s : CState) : DebitEv → CState
  | .check i =>
    if s.phases.getD i .applied = .started then
      if s.balance < amounts.getD i 0 then
        { s with phases := s.phases.set i .rejected }
      else
        { s with phases := s.phases.set i .passed }
    else s
  | .applyInc i =>
    if s.phases.getD i .applied = .passed then
      { balance := s.balance - amounts.getD i 0, phases := s.phases.set i .applied }
    else s

/-- Run an interleaving schedule of debit events. -/
def crun (amounts : List Int) (s : CState) (evs : List DebitEv) : CState :=
  evs.foldl (cstep amounts) s

/-- Initial concurrent state: balance `b0`, `n` requests not yet started. -/
def cinit (b0 : Int) (n : Nat) : CState :=
  { balance := b0, phases := List.replicate n .started }

/-- A serial schedule runs each debit's check and `$inc` back to back. -/
def serialSchedule (n : Nat) : List DebitEv :=
  (List.range n).flatMap (fun i => [.check i, .applyInc i])

/-!  Helper lemmas about the handlers and the sequential semantics. -/

/-- Every digit-filtered list is all digits. -/
theorem all_digits_filter (l : List Char) :
    (l.filter Char.isDigit).all Char.isDigit = true := by
  simp [List.all_eq_true]

/-- `effectiveSum` over a snoc. -/
theorem effectiveSum_append (l : List TransactionRec) (t : TransactionRec) :
    effectiveSum (l ++ [t]) = effectiveSum l + txEffective t := by
  simp [effectiveSum]

/-- Branch summary of the web transfer handler: it either leaves the store
untouched (route validation rejection, schema-validation failure at the
pending save, or duplicate key), or — with the balance
check known to have passed — appends exactly one transfer and either debits
`amountMB` together with a `transfer_sent` entry of `-amountMB`, or keeps the
balance and appends a zero-amount `transfer_failed`/`transfer_error` entry. -/
theorem webTransferSend_cases (p : String) (a : Int) (n : String)
    (pb : ProviderBehavior) (t : String) (s : St) :
    (webTransferSend p a n pb t s).2 = s ∨
    (a ≤ s.ishareBalance ∧ ∃ tr : TransferRec,
      (webTransferSend p a n pb t s).2.transfers = s.transfers ++ [tr] ∧
      (((webTransferSend p a n pb t s).2.ishareBalance = s.ishareBalance - a ∧
        (webTransferSend p a n pb t s).2.transactions =
          s.transactions ++ [{ type := .transfer_sent, amount := -a, method := .web }]) ∨
       ((webTransferSend p a n pb t s).2.ishareBalance = s.ishareBalance ∧
        ((webTransferSend p a n pb t s).2.transactions =
           s.transactions ++ [{ type := .transfer_failed, amount := 0, method := .web }] ∨
         (webTransferSend p a n pb t s).2.transactions =
           s.transactions ++ [{ type := .transfer_error, amount := 0, method := .web }])))) := by
  simp only [webTransferSend]
  split_ifs
  all_goals try exact Or.inl rfl
  all_goals
    (have hba : a ≤ s.ishareBalance := by omega
     split <;> split_ifs <;>
       first
       | exact Or.inr ⟨hba, _, rfl, Or.inl ⟨rfl, rfl⟩⟩
       | exact Or.inr ⟨hba, _, rfl, Or.inr ⟨rfl, Or.inl rfl⟩⟩
       | exact Or.inr ⟨hba, _, rfl, Or.inr ⟨rfl, Or.inr rfl⟩⟩)

/-- One sequential operation keeps the balance non-negative. -/
theorem step_nonneg (s : St) (op : Op) (h : 0 ≤ s.ishareBalance) :
    0 ≤ (step s op).ishareBalance := by
  cases op with
  | adminCredit a =>
    simp only [step, adminCreditIshare]
    split_ifs <;> dsimp only <;> omega
  | adminDebit a =>
    simp only [step, adminDebitIshare]
    split_ifs <;> dsimp only <;> omega
  | useData a =>
    simp only [step, useData]
    split_ifs <;> dsimp only <;> omega
  | apiTransfer p a n =>
    simp only [step, apiTransferSend]
    split_ifs <;> dsimp only <;> omega
  | webTransfer p a n pb t =>
    rcases webTransferSend_cases p a n pb t s with heq | ⟨hba, _, _, (⟨hb, _⟩ | ⟨hb, _⟩)⟩
    · show 0 ≤ (webTransferSend p a n pb t s).2.ishareBalance
      rw [heq]; exact h
    · show 0 ≤ (webTransferSend p a n pb t s).2.ishareBalance
      omega
    · show 0 ≤ (webTransferSend p a n pb t s).2.ishareBalance
      omega

/-- One sequential operation preserves "balance equals the effective ledger
sum". -/
theorem step_ledger (s : St) (op : Op)
    (h : s.ishareBalance = effectiveSum s.transactions) :
    (step s op).ishareBalance = effectiveSum (step s op).transactions := by
  cases op with
  | adminCredit a =>
    simp only [step, adminCreditIshare]
    split_ifs <;> dsimp only <;>
      first
      | exact h
      | (rw [effectiveSum_append]; dsimp only [txEffective]; omega)
  | adminDebit a =>
    simp only [step, adminDebitIshare]
    split_ifs <;> dsimp only <;>
      first
      | exact h
      | (rw [effectiveSum_append]; dsimp only [txEffective]; omega)
  | useData a =>
    simp only [step, useData]
    split_ifs <;> dsimp only <;>
      first
      | exact h
      | (rw [effectiveSum_append]; dsimp only [txEffective]; omega)
  | apiTransfer p a n =>
    simp only [step, apiTransferSend]
    split_ifs <;> dsimp only <;>
      first
      | exact h
      | (rw [effectiveSum_append]; dsimp only [txEffective]; omega)
  | webTransfer p a n pb t =>
    show (webTransferSend p a n pb t s).2.ishareBalance
        = effectiveSum (webTransferSend p a n pb t s).2.transactions
    rcases webTransferSend_cases p a n pb t s with heq | ⟨hba, _, _, (⟨hb, ht⟩ | ⟨hb, ht | ht⟩)⟩
    all_goals first
      | (rw [heq]; exact h)
      | (rw [hb, ht, effectiveSum_append]; dsimp only [txEffective]; omega)

/-- A property preserved by `step` holds after any operation sequence. -/
theorem runOps_preserves {P : St → Prop}
    (hstep : ∀ s op, P s → P (step s op)) :
    ∀ (ops : List Op) (s : St), P s → P (runOps s ops) := by
  intro ops
  induction ops with
  | nil => intro s h; exact h
  | cons op rest ih =>
    intro s h
    exact ih (step s op) (hstep s op h)

/-!  Claims. -/

/-- Claim C1, counterexample.  The claim says every debit checks and applies
in one indivisible step so the balance is never negative.  The code reads the
balance at validation time and decrements unconditionally with `$inc`
(`src/Routes/ApiLogic/api.js` 172–201, `src/unnamed/part_002` 799–846); in
the interleaving where two 400 MB debits against a 500 MB balance both pass
their checks before either `$inc` runs, both apply and the balance reaches
−300. -/
theorem c1_counterexample_interleaved_overdraw :
    (crun [400, 400] (cinit 500 2)
      [.check 0, .check 1, .applyInc 0, .applyInc 1]).balance = -300 ∧
    ¬ 0 ≤ (crun [400, 400] (cinit 500 2)
      [.check 0, .check 1, .applyInc 0, .applyInc 1]).balance := by
  decide

/-- Claim C1 (amended): under sequential (request-at-a-time) execution every
debit path preserves a non-negative balance, and a single debit attempted
with `balance < amount` reports insufficient funds and leaves the store
unchanged; the check and the `$inc` are nonetheless two separate steps, so
the guarantee does not extend to interleaved executions. -/
theorem c1_sequential_debits_nonneg (b0 : Int) (hb : 0 ≤ b0) (ops : List Op) :
    0 ≤ (runOps (initSt b0) ops).ishareBalance ∧
    (∀ a : Int, 0 < a → b0 < a →
      useData a (initSt b0) = (.badRequest "Insufficient balance", initSt b0)) := by
  constructor
  · exact runOps_preserves step_nonneg ops (initSt b0) hb
  · intro a h0 hlt
    have hne : ¬ a ≤ 0 := by omega
    simp only [useData]
    rw [if_neg hne, if_pos (show (initSt b0).ishareBalance < a from hlt)]

/-- Witness for `c1_sequential_debits_nonneg` at balance 500 with two
sequential 400 MB debits (the spec's own scenario), plus one oversized
debit. -/
theorem c1_sequential_debits_nonneg_witness :
    0 ≤ (runOps (initSt 500) [.useData 400, .useData 400]).ishareBalance ∧
    useData 600 (initSt 500) = (.badRequest "Insufficient balance", initSt 500) :=
  ⟨(c1_sequential_debits_nonneg 500 (by decide) [.useData 400, .useData 400]).1,
   (c1_sequential_debits_nonneg 500 (by decide) []).2 600 (by decide) (by decide)⟩

/-- Claim C2, counterexample.  The claim says the balance always equals the
sum of the recorded ledger amounts.  After an admin credit of 100 MB and a
data usage of 60 MB the balance is 40 MB but the recorded amounts sum to
160 MB, because `data_usage` entries are stored with positive amount while
the balance is decremented (`src/unnamed/part_002` 1151–1167,
`src/Routes/AdminRoutes/Admin.js` 375–392). -/
theorem c2_counterexample_data_usage_sign :
    (runOps (initSt 0) [.adminCredit 100, .useData 60]).ishareBalance = 40 ∧
    ledgerSum (runOps (initSt 0) [.adminCredit 100, .useData 60]).transactions = 160 ∧
    (runOps (initSt 0) [.adminCredit 100, .useData 60]).ishareBalance ≠
      ledgerSum (runOps (initSt 0) [.adminCredit 100, .useData 60]).transactions := by
  decide

/-- Claim C2 (amended): after any sequence of operations from an empty
account the balance equals the *effective* ledger sum, in which `data_usage`
entries (recorded positive) count negatively and every other entry counts
with its recorded sign (`transfer_sent` is recorded as `-amountMB`,
`transfer_failed`/`transfer_error` as 0, `admin_load` positive). -/
theorem c2_balance_eq_effective_ledger (ops : List Op) :
    (runOps (initSt 0) ops).ishareBalance
      = effectiveSum (runOps (initSt 0) ops).transactions :=
  runOps_preserves step_ledger ops (initSt 0) rfl

/-- Claim C3: every API-router transfer request that passes local validation
(10-digit phone, `amountMB ≥ 1`, balance sufficient) creates a Transfer
already in terminal state `completed`, debits the sender, performs no
provider call, and stores no provider reference and no idempotency key
(`src/Routes/ApiLogic/api.js` 153–235). -/
theorem c3_api_transfer_completed_without_provider (s : St) (phone note : String)
    (a : Int) (hp : phone.data.length = 10 ∧ phone.data.all Char.isDigit = true)
    (ha : 1 ≤ a) (hb : a ≤ s.ishareBalance) :
    apiTransferSend phone a note s =
      (.okDone (s.ishareBalance - a),
       { ishareBalance := s.ishareBalance - a
         transfers := s.transfers ++
           [{ recipientPhoneNumber := phone, amountMB := a, note := note,
              status := .completed, externalTransactionId := none,
              systemTransactionId := none, vendorTransactionId := none,
              failureReason := none }]
         transactions := s.transactions ++
           [{ type := .transfer_sent, amount := -a, method := .api }]
         providerCalls := s.providerCalls }) := by
  simp only [apiTransferSend]
  rw [if_neg (not_not_intro hp), if_neg (by omega : ¬ a < 1),
    if_neg (by omega : ¬ s.ishareBalance < a)]

/-- Witness for `c3_api_transfer_completed_without_provider`. -/
theorem c3_api_transfer_completed_without_provider_witness :
    apiTransferSend "0241234567" 60 "" (initSt 100) =
      (.okDone ((initSt 100).ishareBalance - 60),
       { ishareBalance := (initSt 100).ishareBalance - 60
         transfers := (initSt 100).transfers ++
           [{ recipientPhoneNumber := "0241234567", amountMB := 60, note := "",
              status := .completed, externalTransactionId := none,
              systemTransactionId := none, vendorTransactionId := none,
              failureReason := none }]
         transactions := (initSt 100).transactions ++
           [{ type := .transfer_sent, amount := -60, method := .api }]
         providerCalls := (initSt 100).providerCalls }) :=
  c3_api_transfer_completed_without_provider (initSt 100) "0241234567" "" 60
    (by decide) (by decide) (by decide)

/-- A provider response body reporting success (`ResponseCode` 200). -/
def okXml : String :=
  "<ResponseCode>200</ResponseCode><ResponseMsg>Crediting successful.</ResponseMsg><systemTranx_id>S1</systemTranx_id><vendorTranx_id>V1</vendorTranx_id>"

/-- A provider response body with an explicit application rejection
(`ResponseCode` 319, "No balance"). -/
def rejectXml : String :=
  "<ResponseCode>319</ResponseCode><ResponseMsg>Failed</ResponseMsg>"

/-- An HTML error page returned by the gateway instead of an XML body. -/
def htmlXml : String :=
  "<html><body>502 Bad Gateway</body></html>"

/-- The phone-number validity test of the web transfer route (digit count
9, 10, or 12 beginning with 233), written exactly as the route's condition. -/
abbrev webPhoneCond (p : String) : Prop :=
  ((jsTrim p).data.filter Char.isDigit).length = 9 ∨
  ((jsTrim p).data.filter Char.isDigit).length = 10 ∨
  (((jsTrim p).data.filter Char.isDigit).length = 12 ∧
    (strLit "233").isPrefixOf ((jsTrim p).data.filter Char.isDigit) = true)

/-- A destination the schema's save validator accepts (9–10 digits) in
particular passes the web route's own digit-count check. -/
theorem webPhoneCond_of_valid (p : String)
    (hd : recipientPhoneValid (jsTrim p) = true) : webPhoneCond p := by
  simp only [recipientPhoneValid, Bool.or_eq_true, beq_iff_eq] at hd
  rcases hd with h | h
  · exact Or.inl h
  · exact Or.inr (Or.inl h)

/-- Whitespace is never a digit. -/
theorem not_digit_of_jsWhitespace (c : Char) (h : jsWhitespace c = true) :
    Char.isDigit c = false := by
  simp only [jsWhitespace, Bool.or_eq_true, beq_iff_eq] at h
  rcases h with ((h | h) | h) | h <;> subst h <;> decide

/-- Dropping a whitespace prefix does not change the digit filter. -/
theorem filter_digits_dropWhile (l : List Char) :
    (l.dropWhile jsWhitespace).filter Char.isDigit = l.filter Char.isDigit := by
  induction l with
  | nil => rfl
  | cons c rest ih =>
    rw [List.dropWhile_cons]
    by_cases hc : jsWhitespace c = true
    · rw [if_pos hc, ih]
      simp [List.filter_cons, not_digit_of_jsWhitespace c hc]
    · rw [if_neg hc]

/-- `String.prototype.trim` only removes whitespace, so it does not change
the digit filter. -/
theorem filter_digits_jsTrim (s : String) :
    (jsTrim s).data.filter Char.isDigit = s.data.filter Char.isDigit := by
  show ((((s.data.dropWhile jsWhitespace).reverse.dropWhile
      jsWhitespace).reverse).filter Char.isDigit) = s.data.filter Char.isDigit
  rw [List.filter_reverse, filter_digits_dropWhile, List.filter_reverse,
    List.reverse_reverse, filter_digits_dropWhile]

/-- A `true` `isPrefixOf` gives the prefix back as a `take`. -/
theorem take_of_isPrefixOf (pre l : List Char)
    (h : pre.isPrefixOf l = true) : l.take pre.length = pre := by
  rw [List.isPrefixOf_iff_prefix] at h
  exact (List.prefix_iff_eq_take.mp h).symm

/-- A 12-digit destination beginning with 233 — the only shape the web
route accepts beyond 9–10 digits — is normalized successfully by
`formatMsisdn`; hence a normalization *failure* after route acceptance can
only come from a 9- or 10-digit destination, which the schema's save
validator accepts. -/
theorem formatMsisdn_ok_of_twelve (p : String)
    (h12 : ((jsTrim p).data.filter Char.isDigit).length = 12)
    (h233 : (strLit "233").isPrefixOf ((jsTrim p).data.filter Char.isDigit) = true) :
    formatMsisdn (jsTrim p) =
      .ok (String.mk ((jsTrim p).data.filter Char.isDigit)) := by
  have hne : ¬ jsTrim p = "" := by
    intro he
    rw [he] at h12
    exact absurd h12 (by decide)
  have htake : ((jsTrim p).data.filter Char.isDigit).take 3 = strLit "233" :=
    take_of_isPrefixOf _ _ h233
  have hn10 : ¬ (((jsTrim p).data.filter Char.isDigit).length = 10 ∧
      ((jsTrim p).data.filter Char.isDigit).take 1 = ['0']) := by
    intro hcj
    have := hcj.1
    omega
  unfold formatMsisdn
  rw [if_neg hne]
  simp only [filter_digits_jsTrim (jsTrim p)]
  rw [if_neg hn10, if_neg (by omega : ¬ ((jsTrim p).data.filter Char.isDigit).length = 10),
    if_neg (by omega : ¬ ((jsTrim p).data.filter Char.isDigit).length = 9),
    if_pos h12, if_pos htake]
  dsimp only
  rw [if_neg (show ¬ ((jsTrim p).data.filter Char.isDigit).length ≠ 12 by omega)]

/-- Claim C4, counterexample.  The claim says a re-submitted transfer request
returns the state of the existing Transfer without a second record, provider
call or debit.  The web route accepts no client idempotency key and generates
a fresh transaction id per request (`generateTransactionId`,
`src/unnamed/part_002` 806–830), so submitting the identical request twice
creates two Transfers, issues two provider calls and debits the sender
twice. -/
theorem c4_counterexample_resubmission_duplicates :
    ((webTransferSend "0267781294" 100 "" (.respond okXml) "WEB_2_B"
        (webTransferSend "0267781294" 100 "" (.respond okXml) "WEB_1_A"
          (initSt 1000)).2).2.transfers.length = 2) ∧
    ((webTransferSend "0267781294" 100 "" (.respond okXml) "WEB_2_B"
        (webTransferSend "0267781294" 100 "" (.respond okXml) "WEB_1_A"
          (initSt 1000)).2).2.providerCalls = 2) ∧
    ((webTransferSend "0267781294" 100 "" (.respond okXml) "WEB_2_B"
        (webTransferSend "0267781294" 100 "" (.respond okXml) "WEB_1_A"
          (initSt 1000)).2).2.ishareBalance = 800) := by
  decide

/-- Claim C4 (amended): the web transfer endpoint performs no lookup of an
existing Transfer.  For every submission that passes route validation, whose
stored destination also passes the schema's 9–10-digit save validator, and
whose generated transaction id is fresh, one more Transfer record is
appended, and one more provider call is issued whenever `formatMsisdn`
additionally accepts the destination; re-submission therefore duplicates
instead of returning the existing Transfer (the unique index on
`externalTransactionId` only guards against collisions of the generated ids
themselves).  A 12-digit destination — admitted by the route's check but
rejected by the schema validator — instead makes the pending save throw:
500, nothing persisted, provider never called. -/
theorem c4_every_submission_appends_transfer (p : String) (a : Int) (n : String)
    (pb : ProviderBehavior) (t : String) (s : St) :
    (recipientPhoneValid (jsTrim p) = true → 50 ≤ a → a ≤ s.ishareBalance →
      s.transfers.any (fun tr => tr.externalTransactionId = some t) = false →
      (webTransferSend p a n pb t s).2.transfers.length = s.transfers.length + 1 ∧
      (∀ r, formatMsisdn (jsTrim p) = .ok r →
        (webTransferSend p a n pb t s).2.providerCalls = s.providerCalls + 1)) ∧
    (webPhoneCond p → 50 ≤ a → a ≤ s.ishareBalance →
      recipientPhoneValid (jsTrim p) = false →
      webTransferSend p a n pb t s =
        (.serverError "IshareTransfer validation failed", s)) := by
  constructor
  · intro hd ha hb hfresh
    have hv : webPhoneCond p := webPhoneCond_of_valid p hd
    simp only [webTransferSend]
    rw [if_neg (not_not_intro hv), if_neg (by omega : ¬ a < 50),
      if_neg (by omega : ¬ s.ishareBalance < a), if_neg (not_not_intro hd),
      if_neg (by simp [hfresh])]
    constructor
    · rcases hsend : sendTransfer pb (jsTrim p) a t with ⟨res, called⟩
      cases res <;> dsimp only <;> split_ifs <;> simp
    · intro r hfmt
      rcases hsend : sendTransfer pb (jsTrim p) a t with ⟨res, called⟩
      have hc : called = true := by
        unfold sendTransfer at hsend
        rw [if_neg (by omega : ¬ a < 50), hfmt] at hsend
        cases pb with
        | respond xml =>
          injection hsend with h1 h2
          exact h2.symm
        | networkFault f =>
          injection hsend with h1 h2
          exact h2.symm
      cases res <;> dsimp only <;> split_ifs <;> simp [hc]
  · intro hv ha hb hdf
    simp only [webTransferSend]
    rw [if_neg (not_not_intro hv), if_neg (by omega : ¬ a < 50),
      if_neg (by omega : ¬ s.ishareBalance < a), if_pos (by simp [hdf])]

/-- Witness for `c4_every_submission_appends_transfer`: a 10-digit
destination appends a Transfer and a provider call; the 12-digit destination
"233267781294" makes the pending save throw with nothing persisted. -/
theorem c4_every_submission_appends_transfer_witness :
    (webTransferSend "0267781294" 100 "" (.respond okXml) "WEB_1_A"
      (initSt 1000)).2.transfers.length = (initSt 1000).transfers.length + 1 ∧
    (webTransferSend "0267781294" 100 "" (.respond okXml) "WEB_1_A"
      (initSt 1000)).2.providerCalls = (initSt 1000).providerCalls + 1 ∧
    webTransferSend "233267781294" 100 "" (.respond okXml) "WEB_1_A"
      (initSt 1000) = (.serverError "IshareTransfer validation failed", initSt 1000) :=
  ⟨((c4_every_submission_appends_transfer "0267781294" 100 "" (.respond okXml)
      "WEB_1_A" (initSt 1000)).1 (by decide) (by decide) (by decide) (by decide)).1,
   ((c4_every_submission_appends_transfer "0267781294" 100 "" (.respond okXml)
      "WEB_1_A" (initSt 1000)).1 (by decide) (by decide) (by decide) (by decide)).2
     "233267781294" rfl,
   (c4_every_submission_appends_transfer "233267781294" 100 "" (.respond okXml)
      "WEB_1_A" (initSt 1000)).2 (by decide) (by decide) (by decide) (by decide)⟩

/-- Claim C5, counterexample.  The claim says a transport-level fault leaves
the Transfer in a non-terminal ProviderUnknown state.  The web route's catch
block sets `transfer.status = 'failed'` — a terminal state — on a timeout
(`src/unnamed/part_002` 912–936). -/
theorem c5_counterexample_timeout_marked_failed :
    ((webTransferSend "0267781294" 100 "" (.networkFault .timedOut) "WEB_1_A"
        (initSt 500)).2.transfers.map (fun tr => tr.status)) = [.failed] ∧
    ((webTransferSend "0267781294" 100 "" (.networkFault .timedOut) "WEB_1_A"
        (initSt 500)).2.transfers.map (fun tr => tr.status)) ≠ [.pending] := by
  decide

/-- Claim C5 (amended): on every transport-level fault of the provider call
(timeout, connection refused, DNS failure) for a request that passed route
validation, the schema's save validation of the pending Transfer, and
normalization, the Transfer is placed in the *terminal* state `failed` with
the fault message as `failureReason`, a `transfer_error` ledger entry with
amount 0 is recorded, and the balance is unchanged. -/
theorem c5_transport_fault_terminal_failed_no_debit (p : String) (a : Int)
    (n : String) (f : NetFault) (t : String) (s : St)
    (hd : recipientPhoneValid (jsTrim p) = true) (ha : 50 ≤ a)
    (hb : a ≤ s.ishareBalance)
    (hfresh : s.transfers.any (fun tr => tr.externalTransactionId = some t) = false)
    (r : String) (hfmt : formatMsisdn (jsTrim p) = .ok r) :
    (webTransferSend p a n (.networkFault f) t s).2.ishareBalance = s.ishareBalance ∧
    (webTransferSend p a n (.networkFault f) t s).2.transfers =
      s.transfers ++
        [{ recipientPhoneNumber := jsTrim p, amountMB := a, note := n,
           status := .failed, externalTransactionId := some t,
           systemTransactionId := none, vendorTransactionId := none,
           failureReason := some (jsOrStr (netFaultMessage f) "Provider service unavailable") }] ∧
    (webTransferSend p a n (.networkFault f) t s).2.transactions =
      s.transactions ++ [{ type := .transfer_error, amount := 0, method := .web }] := by
  have hv : webPhoneCond p := webPhoneCond_of_valid p hd
  have hsend : sendTransfer (.networkFault f) (jsTrim p) a t =
      (.error (netFaultMessage f), true) := by
    unfold sendTransfer
    rw [if_neg (by omega : ¬ a < 50), hfmt]
  simp only [webTransferSend]
  rw [if_neg (not_not_intro hv), if_neg (by omega : ¬ a < 50),
    if_neg (by omega : ¬ s.ishareBalance < a), if_neg (not_not_intro hd),
    if_neg (by simp [hfresh]), hsend]
  dsimp only
  split_ifs <;> exact ⟨rfl, rfl, rfl⟩

/-- Witness for `c5_transport_fault_terminal_failed_no_debit`. -/
theorem c5_transport_fault_terminal_failed_no_debit_witness :
    (webTransferSend "0267781294" 100 "" (.networkFault .timedOut) "WEB_1_A"
      (initSt 500)).2.ishareBalance = (initSt 500).ishareBalance ∧
    (webTransferSend "0267781294" 100 "" (.networkFault .timedOut) "WEB_1_A"
      (initSt 500)).2.transfers =
      (initSt 500).transfers ++
        [{ recipientPhoneNumber := jsTrim "0267781294", amountMB := 100, note := "",
           status := .failed, externalTransactionId := some "WEB_1_A",
           systemTransactionId := none, vendorTransactionId := none,
           failureReason := some (jsOrStr (netFaultMessage .timedOut)
             "Provider service unavailable") }] ∧
    (webTransferSend "0267781294" 100 "" (.networkFault .timedOut) "WEB_1_A"
      (initSt 500)).2.transactions =
      (initSt 500).transactions ++ [{ type := .transfer_error, amount := 0, method := .web }] :=
  c5_transport_fault_terminal_failed_no_debit "0267781294" 100 "" .timedOut
    "WEB_1_A" (initSt 500) (by decide) (by decide) (by decide) (by decide)
    "233267781294" rfl

/-- Claim C6, counterexample.  The claim says a transfer request failing
validation (here: a destination the normalizer rejects) terminates without
contacting the provider *and without creating any ledger entry*.  For the
9-digit input "267781294" (accepted by the route, rejected inside
`sendTransfer` by `formatMsisdn`) a failed Transfer *and* a `transfer_error`
Transaction are persisted (`src/unnamed/part_002` 812–830, 921–936), though
the provider is indeed never contacted and the balance is unchanged. -/
theorem c6_counterexample_normalization_failure_creates_records :
    ((webTransferSend "267781294" 100 "" (.respond okXml) "WEB_1_A"
        (initSt 500)).2.transactions.map (fun tr => tr.type)) = [.transfer_error] ∧
    (webTransferSend "267781294" 100 "" (.respond okXml) "WEB_1_A"
        (initSt 500)).2.transactions ≠ [] ∧
    ((webTransferSend "267781294" 100 "" (.respond okXml) "WEB_1_A"
        (initSt 500)).2.transfers.map (fun tr => tr.status)) = [.failed] ∧
    (webTransferSend "267781294" 100 "" (.respond okXml) "WEB_1_A"
        (initSt 500)).2.providerCalls = 0 ∧
    (webTransferSend "267781294" 100 "" (.respond okXml) "WEB_1_A"
        (initSt 500)).2.ishareBalance = 500 := by
  decide

/-- Claim C6 (amended): route-level validation failures (phone shape, amount
below 50, insufficient advisory balance) return 400 with *nothing* persisted
and no provider contact; but a destination that passes the route and is then
rejected by `formatMsisdn` inside the adapter fails *after* the pending
Transfer was persisted — the provider is never contacted and the balance is
unchanged, yet a failed Transfer and a zero-amount `transfer_error` ledger
entry are created. -/
theorem c6_validation_vs_normalization_failures (p : String) (a : Int) (n : String)
    (pb : ProviderBehavior) (t : String) (s : St) :
    ((¬ webPhoneCond p ∨ a < 50 ∨ s.ishareBalance < a) →
      ∃ m, webTransferSend p a n pb t s = (.badRequest m, s)) ∧
    (webPhoneCond p → 50 ≤ a → a ≤ s.ishareBalance →
      s.transfers.any (fun tr => tr.externalTransactionId = some t) = false →
      ∀ e, formatMsisdn (jsTrim p) = .error e →
        (webTransferSend p a n pb t s).2.providerCalls = s.providerCalls ∧
        (webTransferSend p a n pb t s).2.ishareBalance = s.ishareBalance ∧
        (webTransferSend p a n pb t s).2.transactions =
          s.transactions ++ [{ type := .transfer_error, amount := 0, method := .web }] ∧
        (webTransferSend p a n pb t s).2.transfers =
          s.transfers ++
            [{ recipientPhoneNumber := jsTrim p, amountMB := a, note := n,
               status := .failed, externalTransactionId := some t,
               systemTransactionId := none, vendorTransactionId := none,
               failureReason := some (jsOrStr e "Provider service unavailable") }]) := by
  constructor
  · intro hbad
    simp only [webTransferSend]
    by_cases hc : webPhoneCond p
    · rw [if_neg (not_not_intro hc)]
      by_cases h50 : a < 50
      · rw [if_pos h50]
        exact ⟨_, rfl⟩
      · have hlow : s.ishareBalance < a := by
          rcases hbad with h | h | h
          · exact absurd hc h
          · exact absurd h h50
          · exact h
        rw [if_neg h50, if_pos hlow]
        exact ⟨_, rfl⟩
    · rw [if_pos hc]
      exact ⟨_, rfl⟩
  · intro hc h50 hbal hfresh e hfmt
    have hd : recipientPhoneValid (jsTrim p) = true := by
      rcases hc with h9 | h10 | ⟨h12, h233⟩
      · simp [recipientPhoneValid, h9]
      · simp [recipientPhoneValid, h10]
      · rw [formatMsisdn_ok_of_twelve p h12 h233] at hfmt
        exact Except.noConfusion hfmt
    have hsend : sendTransfer pb (jsTrim p) a t = (.error e, false) := by
      unfold sendTransfer
      rw [if_neg (by omega : ¬ a < 50), hfmt]
    simp only [webTransferSend]
    rw [if_neg (not_not_intro hc), if_neg (by omega : ¬ a < 50),
      if_neg (by omega : ¬ s.ishareBalance < a), if_neg (not_not_intro hd),
      if_neg (by simp [hfresh]), hsend]
    dsimp only
    split_ifs <;> first | exact ⟨rfl, rfl, rfl, rfl⟩ | simp_all

/-- Witness for `c6_validation_vs_normalization_failures`: an amount below
50 is rejected with nothing persisted, and the 9-digit destination
"267781294" produces the post-normalization failure records. -/
theorem c6_validation_vs_normalization_failures_witness :
    (∃ m, webTransferSend "0267781294" 10 "" (.respond okXml) "WEB_1_A" (initSt 500)
        = (.badRequest m, initSt 500)) ∧
    (webTransferSend "267781294" 100 "" (.respond okXml) "WEB_1_A"
        (initSt 500)).2.providerCalls = (initSt 500).providerCalls ∧
    (webTransferSend "267781294" 100 "" (.respond okXml) "WEB_1_A"
        (initSt 500)).2.ishareBalance = (initSt 500).ishareBalance :=
  ⟨(c6_validation_vs_normalization_failures "0267781294" 10 "" (.respond okXml)
      "WEB_1_A" (initSt 500)).1 (Or.inr (Or.inl (by decide))),
   ((c6_validation_vs_normalization_failures "267781294" 100 "" (.respond okXml)
      "WEB_1_A" (initSt 500)).2 (by decide) (by decide) (by decide) (by decide)
      "Final formatted number must be 12 digits. Got 13 digits" rfl).1,
   ((c6_validation_vs_normalization_failures "267781294" 100 "" (.respond okXml)
      "WEB_1_A" (initSt 500)).2 (by decide) (by decide) (by decide) (by decide)
      "Final formatted number must be 12 digits. Got 13 digits" rfl).2.1⟩

/-- Claim C7, counterexample.  The claim says no transfer with amount below
the provider minimum of 50 ever results in a completed Transfer or a balance
debit.  The API router accepts any `amountMB ≥ 1`: a 10 MB request completes
and debits the balance (`src/Routes/ApiLogic/api.js` 165–201). -/
theorem c7_counterexample_api_completes_below_minimum :
    ((apiTransferSend "0241234567" 10 "" (initSt 100)).2.transfers.map
        (fun tr => tr.status)) = [.completed] ∧
    (apiTransferSend "0241234567" 10 "" (initSt 100)).2.ishareBalance = 90 ∧
    (10 : Int) < 50 := by
  decide

/-- Claim C7 (amended): the 50 MB provider minimum is enforced on the web
path (rejected with nothing persisted, provider never contacted) and inside
the provider adapter itself (`sendTransfer` throws before issuing the HTTP
request); the developer API path, however, accepts any amount ≥ 1 MB and
completes/debits locally without provider contact. -/
theorem c7_minimum_enforced_on_web_and_adapter (p n t : String) (a : Int)
    (pb : ProviderBehavior) (s : St) (ha : a < 50) :
    (∃ m, webTransferSend p a n pb t s = (.badRequest m, s)) ∧
    sendTransfer pb p a t = (.error "Minimum transfer amount is 50MB", false) := by
  constructor
  · simp only [webTransferSend]
    by_cases hc : webPhoneCond p
    · rw [if_neg (not_not_intro hc), if_pos ha]
      exact ⟨_, rfl⟩
    · rw [if_pos hc]
      exact ⟨_, rfl⟩
  · unfold sendTransfer
    rw [if_pos ha]

/-- Witness for `c7_minimum_enforced_on_web_and_adapter`. -/
theorem c7_minimum_enforced_on_web_and_adapter_witness :
    (∃ m, webTransferSend "0267781294" 10 "" (.respond okXml) "WEB_1_A" (initSt 100)
        = (.badRequest m, initSt 100)) ∧
    sendTransfer (.respond okXml) "0267781294" 10 "WEB_1_A"
        = (.error "Minimum transfer amount is 50MB", false) :=
  c7_minimum_enforced_on_web_and_adapter "0267781294" "" "WEB_1_A" 10
    (.respond okXml) (initSt 100) (by decide)

/-- Digits survive dropping a prefix. -/
theorem all_digits_drop (l : List Char) (k : Nat)
    (h : l.all Char.isDigit = true) : (l.drop k).all Char.isDigit = true := by
  simp only [List.all_eq_true] at h ⊢
  intro x hx
  exact h x (List.mem_of_mem_drop hx)

/-- Claim C8: of the spec's normalization round-trip examples, the code
reproduces four — `formatMsisdn "0267781294"`, `"233267781294"` and
`"0233267781294"` all yield `"233267781294"`, and `"12345"` fails closed —
but `formatMsisdn "267781294"` throws instead of returning `"233267781294"`:
the 9-digit branch prepends `'233' + '2'`, yielding 13 digits, which the
function's own final length-12 check then rejects
(`src/Connection/connection.js` 490–513). -/
theorem c8_round_trip_examples :
    formatMsisdn "0267781294" = .ok "233267781294" ∧
    formatMsisdn "233267781294" = .ok "233267781294" ∧
    formatMsisdn "0233267781294" = .ok "233267781294" ∧
    formatMsisdn "12345" = .error "Invalid phone number format. Received 5 digits" ∧
    formatMsisdn "267781294" =
      .error "Final formatted number must be 12 digits. Got 13 digits" :=
  ⟨rfl, rfl, rfl, rfl, rfl⟩

/-- Claim C9: for every input string, `formatMsisdn` either returns a value
of exactly 12 characters that are all digits and begin with `233`, or it
fails closed with an error; no other output is possible
(`src/Connection/connection.js` 461–528). -/
theorem c9_normalize_postcondition (s r : String)
    (h : formatMsisdn s = .ok r) :
    r.data.length = 12 ∧ r.data.take 3 = ['2', '3', '3'] ∧
    r.data.all Char.isDigit = true := by
  unfold formatMsisdn at h
  by_cases hs : s = ""
  · rw [if_pos hs] at h
    exact Except.noConfusion h
  · rw [if_neg hs] at h
    simp only [] at h
    set cleaned := (jsTrim s).data.filter Char.isDigit with hcl
    split at h
    · exact Except.noConfusion h
    · rename_i c heq
      split_ifs at h with hlen
      · have hc : String.mk c = r := by injection h
        subst hc
        have hlen12 : c.length = 12 := by omega
        have hdig : cleaned.all Char.isDigit = true := by
          rw [hcl]
          exact all_digits_filter _
        by_cases h10 : cleaned.length = 10 ∧ cleaned.take 1 = ['0']
        · rw [if_pos h10] at heq
          injection heq with heq
          subst heq
          refine ⟨hlen12, rfl, ?_⟩
          simp only [List.all_append, Bool.and_eq_true]
          exact ⟨rfl, all_digits_drop _ _ hdig⟩
        · rw [if_neg h10] at heq
          by_cases h10b : cleaned.length = 10
          · rw [if_pos h10b] at heq
            injection heq with heq
            have hl : c.length = 13 := by
              rw [← heq, List.length_append, h10b]
              decide
            omega
          · rw [if_neg h10b] at heq
            by_cases h9 : cleaned.length = 9
            · rw [if_pos h9] at heq
              injection heq with heq
              have hl : c.length = 13 := by
                rw [← heq, List.length_append, List.length_append, h9]
                decide
              omega
            · rw [if_neg h9] at heq
              by_cases h12 : cleaned.length = 12
              · rw [if_pos h12] at heq
                by_cases h233 : cleaned.take 3 = strLit "233"
                · rw [if_pos h233] at heq
                  injection heq with heq
                  subst heq
                  refine ⟨hlen12, ?_, hdig⟩
                  rw [h233]
                  rfl
                · rw [if_neg h233] at heq
                  exact Except.noConfusion heq
              · rw [if_neg h12] at heq
                by_cases h13 : cleaned.length = 13 ∧ cleaned.take 4 = strLit "0233"
                · rw [if_pos h13] at heq
                  injection heq with heq
                  subst heq
                  refine ⟨hlen12, ?_, all_digits_drop _ _ hdig⟩
                  have h4 : cleaned.take (1 + 3) = strLit "0233" := h13.2
                  rw [List.take_drop, h4]
                  rfl
                · rw [if_neg h13] at heq
                  exact Except.noConfusion heq

/-- Witness for `c9_normalize_postcondition`. -/
theorem c9_normalize_postcondition_witness :
    ("233267781294" : String).data.length = 12 ∧
    ("233267781294" : String).data.take 3 = ['2', '3', '3'] ∧
    ("233267781294" : String).data.all Char.isDigit = true :=
  c9_normalize_postcondition "0267781294" "233267781294" rfl

/-- Claim C10, counterexample.  The claim says an HTML payload is classified
distinctly from an explicit application rejection.  The enhanced parser
returns the same ordinary `{success: false}` result shape, and the web route
then takes exactly the same branch for the HTML page as for the explicit
code-319 rejection: terminal `failed` Transfer plus a `transfer_failed`
ledger entry (`src/Connection/connection.js` 361–426, `src/unnamed/part_002`
877–910). -/
theorem c10_counterexample_html_handled_as_rejection :
    ((webTransferSend "0267781294" 100 "" (.respond htmlXml) "WEB_1_A"
        (initSt 500)).2.transfers.map (fun tr => tr.status)) = [.failed] ∧
    ((webTransferSend "0267781294" 100 "" (.respond rejectXml) "WEB_1_A"
        (initSt 500)).2.transfers.map (fun tr => tr.status)) = [.failed] ∧
    ((webTransferSend "0267781294" 100 "" (.respond htmlXml) "WEB_1_A"
        (initSt 500)).2.transactions.map (fun tr => tr.type)) = [.transfer_failed] ∧
    ((webTransferSend "0267781294" 100 "" (.respond rejectXml) "WEB_1_A"
        (initSt 500)).2.transactions.map (fun tr => tr.type)) = [.transfer_failed] ∧
    (parseTransferResponse htmlXml).success = false := by
  decide

/-- Claim C10 (amended): every provider payload whose trimmed body begins
with `<html` makes the enhanced parser return, without extracting any field,
the fixed ordinary failure record (`success: false`, null response code, the
HTML-page message, a `parseError` marker) — never success; and the transfer
flow then treats such a payload exactly like an explicit application
rejection, recording a terminal `failed` Transfer and a `transfer_failed`
entry, with no distinct transport-fault classification. -/
theorem c10_html_payload_ordinary_failure (xml : String)
    (h : (strLit "<html").isPrefixOf (jsTrim xml).data = true) :
    parseTransferResponse xml =
      { success := false
        responseCode := none
        message := "Provider returned HTML error page instead of XML response"
        systemTransactionId := none
        vendorTransactionId := none
        parseError := some "HTML response received" } ∧
    ((webTransferSend "0267781294" 100 "" (.respond xml) "WEB_1_A"
        (initSt 500)).2.transactions.map (fun tr => tr.type)) = [.transfer_failed] ∧
    ((webTransferSend "0267781294" 100 "" (.respond xml) "WEB_1_A"
        (initSt 500)).2.transfers.map (fun tr => tr.status)) = [.failed] := by
  have hparse : parseTransferResponse xml =
      { success := false
        responseCode := none
        message := "Provider returned HTML error page instead of XML response"
        systemTransactionId := none
        vendorTransactionId := none
        parseError := some "HTML response received" } := by
    unfold parseTransferResponse
    rw [if_pos h]
  have hsend : sendTransfer (.respond xml) (jsTrim "0267781294") 100 "WEB_1_A" =
      (.ok (parseTransferResponse xml), true) := rfl
  refine ⟨hparse, ?_⟩
  simp only [webTransferSend]
  rw [if_neg (by decide), if_neg (by decide), if_neg (by decide), if_neg (by decide),
    if_neg (by decide), hsend]
  dsimp only
  rw [if_neg (show ¬ (parseTransferResponse xml).success = true by simp [hparse])]
  exact ⟨rfl, rfl⟩

/-- Witness for `c10_html_payload_ordinary_failure` at a concrete HTML error
page. -/
theorem c10_html_payload_ordinary_failure_witness :
    parseTransferResponse htmlXml =
      { success := false
        responseCode := none
        message := "Provider returned HTML error page instead of XML response"
        systemTransactionId := none
        vendorTransactionId := none
        parseError := some "HTML response received" } ∧
    ((webTransferSend "0267781294" 100 "" (.respond htmlXml) "WEB_1_A"
        (initSt 500)).2.transactions.map (fun tr => tr.type)) = [.transfer_failed] ∧
    ((webTransferSend "0267781294" 100 "" (.respond htmlXml) "WEB_1_A"
        (initSt 500)).2.transfers.map (fun tr => tr.status)) = [.failed] :=
  c10_html_payload_ordinary_failure htmlXml (by decide)
